import Mathlib

/-!
Shallow embedding of the ingestion core of the socio-founds backend:
the four upload controllers (balance sheet, cash flow, membership fees,
financial ratios), the balance-sheet summary computation, and the
spec-described ratio trend rule.  Persistence is modelled as explicit
state passing over a `DB` record of row lists; each prisma call in the
source becomes one pure state transformation, applied in source order.
-/

namespace SocioFunds

/-- Balance sheet account categories (prisma enum `BalanceCategory`). -/
inductive BalanceCategory where
  | assets
  | liabilities
  | equity
deriving DecidableEq, Repr

/-- Cash flow activity categories (prisma enum `CashFlowCategory`). -/
inductive CashFlowCategory where
  | operating
  | investing
  | financing
deriving DecidableEq, Repr

/-- Membership fee status (prisma enum `FeeStatus`). -/
inductive FeeStatus where
  | up_to_date
  | with_debt
deriving DecidableEq, Repr

/-- Ratio trend labels. -/
inductive Trend where
  | up
  | down
  | stable
deriving DecidableEq, Repr

/-- JavaScript `String(x)` applied to a possibly-undefined cell:
`String(undefined)` is the string `"undefined"`. -/
def jsStr (o : Option String) : String :=
  o.getD "undefined"

/-- Lowercase one ASCII letter, as `toLowerCase()` does on the ASCII range
(every token of the lookup tables is ASCII). -/
def asciiLower (c : Char) : Char :=
  if 65 ≤ c.toNat ∧ c.toNat ≤ 90 then Char.ofNat (c.toNat + 32) else c

/-- `toLowerCase()` applied to a cell before the table lookups. -/
def jsToLower (s : String) : String :=
  ⟨s.data.map asciiLower⟩

/-- `parseFloat(x) || 0`: a missing or unparseable numeric cell becomes 0. -/
def orZero (o : Option ℚ) : ℚ :=
  o.getD 0

/-- JavaScript truthiness of a string-valued cell: `undefined` and the
empty string are falsy. -/
def present : Option String → Bool
  | none => false
  | some s => s ≠ ""

/-- The `categoryMap` lookup of `uploadBalanceSheet`. -/
def balanceCategoryMap : String → Option BalanceCategory
  | "activo" => some .assets
  | "pasivo" => some .liabilities
  | "patrimonio" => some .equity
  | _ => none

/-- The `categoryMap` lookup of `uploadCashFlow`. -/
def cashFlowCategoryMap : String → Option CashFlowCategory
  | "operacion" => some .operating
  | "inversion" => some .investing
  | "financiamiento" => some .financing
  | _ => none

/-- The `statusMap` lookup of `uploadMembershipFees`. -/
def feeStatusMap : String → Option FeeStatus
  | "pagado" => some .up_to_date
  | "parcial" => some .with_debt
  | "pendiente" => some .with_debt
  | "atrasado" => some .with_debt
  | _ => none

/-- The `trendMap` lookup of `uploadRatios`. -/
def trendMap : String → Option Trend
  | "up" => some .up
  | "down" => some .down
  | "stable" => some .stable
  | "subiendo" => some .up
  | "bajando" => some .down
  | "estable" => some .stable
  | _ => none

/-- A balance sheet row after `parseFile` and `mapRow` with
`balanceSheetColumnMap`: recognized columns only, each possibly absent. -/
structure RawBalanceRow where
  accountCode : Option String
  accountName : Option String
  category : Option String
  amount : Option ℚ
  parentAccount : Option String
deriving DecidableEq, Repr

/-- A cash flow row after `mapRow` with `cashFlowColumnMap`. -/
structure RawCashFlowRow where
  category : Option String
  description : Option String
  amount : Option ℚ
deriving DecidableEq, Repr

/-- A membership fee row after `mapRow` with `membershipFeesColumnMap`. -/
structure RawFeeRow where
  memberId : Option String
  memberName : Option String
  expectedContribution : Option ℚ
  paymentMade : Option ℚ
  status : Option String
deriving DecidableEq, Repr

/-- A ratio row after `mapRow` with `ratiosColumnMap`. -/
structure RawRatioRow where
  name : Option String
  value : Option ℚ
  trend : Option String
  description : Option String
deriving DecidableEq, Repr

/-- Persisted `BalanceSheetEntry` row. -/
structure BalanceSheetEntry where
  cooperativeId : String
  year : Nat
  month : Nat
  accountCode : String
  accountName : String
  category : BalanceCategory
  subcategory : Option String
  initialDebit : ℚ
  initialCredit : ℚ
  periodDebit : ℚ
  periodCredit : ℚ
  finalDebit : ℚ
  finalCredit : ℚ
deriving DecidableEq, Repr

/-- Persisted `CashFlowEntry` row. -/
structure CashFlowEntry where
  cooperativeId : String
  year : Nat
  month : Nat
  description : String
  category : CashFlowCategory
  amount : ℚ
deriving DecidableEq, Repr

/-- Persisted `MembershipFee` row. -/
structure MembershipFee where
  cooperativeId : String
  year : Nat
  month : Nat
  memberId : String
  memberName : String
  expectedContribution : ℚ
  paymentMade : ℚ
  debt : ℚ
  status : FeeStatus
deriving DecidableEq, Repr

/-- Persisted `FinancialRatio` row; unique on (cooperativeId, year, month, name). -/
structure FinancialRatio where
  cooperativeId : String
  year : Nat
  month : Nat
  name : String
  value : ℚ
  trend : Trend
  description : Option String
deriving DecidableEq, Repr

/-- Persisted `UploadHistory` row. -/
structure UploadHistoryEntry where
  cooperativeId : String
  userId : String
  year : Nat
  month : Nat
  module : String
  status : String
  recordsCount : Nat
  errorMessage : Option String
deriving DecidableEq, Repr

/-- The database state touched by the ingestion core. -/
structure DB where
  balanceEntries : List BalanceSheetEntry
  cashFlowEntries : List CashFlowEntry
  membershipFees : List MembershipFee
  financialRatios : List FinancialRatio
  periods : List (String × Nat × Nat)
  uploadHistory : List UploadHistoryEntry
deriving DecidableEq, Repr

/-- The empty database. -/
def DB.empty : DB :=
  ⟨[], [], [], [], [], []⟩

/-- prisma `where: { cooperativeId, year, month }` on balance entries. -/
def balanceKeyMatch (cid : String) (y m : Nat) (e : BalanceSheetEntry) : Bool :=
  e.cooperativeId == cid && e.year == y && e.month == m

/-- prisma `where: { cooperativeId, year, month }` on cash flow entries. -/
def cashFlowKeyMatch (cid : String) (y m : Nat) (e : CashFlowEntry) : Bool :=
  e.cooperativeId == cid && e.year == y && e.month == m

/-- prisma `where: { cooperativeId, year, month }` on membership fees. -/
def feeKeyMatch (cid : String) (y m : Nat) (e : MembershipFee) : Bool :=
  e.cooperativeId == cid && e.year == y && e.month == m

/-- prisma `where: { cooperativeId, year, month }` on financial ratios. -/
def ratioPeriodMatch (cid : String) (y m : Nat) (e : FinancialRatio) : Bool :=
  e.cooperativeId == cid && e.year == y && e.month == m

/-- The `cooperativeId_year_month_name` unique key comparison used by the
ratio upsert. -/
def ratioKeyMatch (row e : FinancialRatio) : Bool :=
  e.cooperativeId == row.cooperativeId && e.year == row.year &&
    e.month == row.month && e.name == row.name

/-- `prisma.period.upsert` with empty update: create if absent, no-op if present. -/
def upsertPeriod (l : List (String × Nat × Nat)) (cid : String) (y m : Nat) :
    List (String × Nat × Nat) :=
  if (cid, y, m) ∈ l then l else l ++ [(cid, y, m)]

/-- `prisma.financialRatio.upsert` keyed on (cooperativeId, year, month, name):
update value, trend and description of the matching row, or append a new row. -/
def upsertRatio (l : List FinancialRatio) (row : FinancialRatio) : List FinancialRatio :=
  if l.any (ratioKeyMatch row) then
    l.map fun e =>
      if ratioKeyMatch row e then
        { e with value := row.value, trend := row.trend, description := row.description }
      else e
  else l ++ [row]

/-- The record constructed for `prisma.balanceSheetEntry.createMany` from one
valid mapped row (upload.controller.ts lines 146-160). -/
def mkBalanceSheetEntry (cid : String) (y m : Nat) (r : RawBalanceRow) : BalanceSheetEntry :=
  { cooperativeId := cid
    year := y
    month := m
    accountCode := r.accountCode.getD ""
    accountName := r.accountName.getD ""
    category := (balanceCategoryMap (jsToLower (jsStr r.category))).getD .assets
    subcategory := if present r.parentAccount then r.parentAccount else none
    initialDebit := 0
    initialCredit := 0
    periodDebit := 0
    periodCredit := 0
    finalDebit := orZero r.amount
    finalCredit := 0 }

/-- The record constructed for `prisma.cashFlowEntry.createMany` from one valid
mapped row (upload.controller.ts lines 275-282). -/
def mkCashFlowEntry (cid : String) (y m : Nat) (r : RawCashFlowRow) : CashFlowEntry :=
  { cooperativeId := cid
    year := y
    month := m
    description := r.description.getD ""
    category := (cashFlowCategoryMap (jsToLower (jsStr r.category))).getD .operating
    amount := orZero r.amount }

/-- The record constructed for `prisma.membershipFee.createMany` from one valid
mapped row (upload.controller.ts lines 391-407): debt is clamped at 0 and an
explicit recognized status token wins over the debt-derived status. -/
def mkMembershipFee (cid : String) (y m : Nat) (r : RawFeeRow) : MembershipFee :=
  let expected := orZero r.expectedContribution
  let paid := orZero r.paymentMade
  let debt := expected - paid
  { cooperativeId := cid
    year := y
    month := m
    memberId := r.memberId.getD ""
    memberName := r.memberName.getD ""
    expectedContribution := expected
    paymentMade := paid
    debt := if debt > 0 then debt else 0
    status := (feeStatusMap (jsToLower (jsStr r.status))).getD
      (if debt > 0 then .with_debt else .up_to_date) }

/-- The record upserted by `uploadRatios` for one valid mapped row
(upload.controller.ts lines 508-531). -/
def mkFinancialRatio (cid : String) (y m : Nat) (r : RawRatioRow) : FinancialRatio :=
  { cooperativeId := cid
    year := y
    month := m
    name := r.name.getD ""
    value := orZero r.value
    trend := (trendMap (jsToLower (jsStr r.trend))).getD .stable
    description := if present r.description then r.description else none }

/-- `records.filter(r => r.accountCode && r.accountName)`. -/
def balanceRowValid (r : RawBalanceRow) : Bool :=
  present r.accountCode && present r.accountName

/-- `records.filter(r => r.description && r.category)`. -/
def cashFlowRowValid (r : RawCashFlowRow) : Bool :=
  present r.description && present r.category

/-- `records.filter(r => r.memberId && r.memberName)`. -/
def feeRowValid (r : RawFeeRow) : Bool :=
  present r.memberId && present r.memberName

/-- `records.filter(r => r.name && r.value !== undefined)`. -/
def ratioRowValid (r : RawRatioRow) : Bool :=
  present r.name && r.value.isSome

/-- Result sent to the HTTP caller: `sendSuccess` with a records count, or
`sendError` with a message and a status code. -/
inductive UploadOutcome where
  | success (recordsCount : Nat)
  | apiError (message : String) (code : Nat)
deriving DecidableEq, Repr

/-- `uploadBalanceSheet` (upload.controller.ts lines 78-207) from the point
where the file has been parsed and mapped: `parsed` is the outcome of
`parseFile` plus `mapRow`, with a thrown parse error as `Except.error`.
Each prisma call of the source is one state update, in source order. -/
def uploadBalanceSheet (db : DB) (cid uid : String) (y m : Nat) (overwrite : Bool)
    (parsed : Except String (List RawBalanceRow)) : DB × UploadOutcome :=
  match parsed with
  | .error _ => (db, .apiError "Failed to parse file. Please check the file format." 400)
  | .ok records =>
    if records.isEmpty then
      (db, .apiError "No valid records found in file" 400)
    else if !overwrite && db.balanceEntries.any (balanceKeyMatch cid y m) then
      (db, .apiError "Data already exists for this period. Enable overwrite to replace." 400)
    else
      let kept := db.balanceEntries.filter (fun e => !balanceKeyMatch cid y m e)
      let db1 := if overwrite then { db with balanceEntries := kept } else db
      let valid := records.filter balanceRowValid
      let db2 := { db1 with balanceEntries :=
        db1.balanceEntries ++ valid.map (mkBalanceSheetEntry cid y m) }
      let db3 := { db2 with periods := upsertPeriod db2.periods cid y m }
      let db4 := { db3 with uploadHistory := db3.uploadHistory ++
        [{ cooperativeId := cid, userId := uid, year := y, month := m,
           module := "balance_sheet", status := "success",
           recordsCount := valid.length, errorMessage := none }] }
      (db4, .success valid.length)

/-- `uploadCashFlow` (upload.controller.ts lines 210-322) from the point where
the file has been parsed and mapped. -/
def uploadCashFlow (db : DB) (cid uid : String) (y m : Nat) (overwrite : Bool)
    (parsed : Except String (List RawCashFlowRow)) : DB × UploadOutcome :=
  match parsed with
  | .error _ => (db, .apiError "Failed to parse file" 400)
  | .ok records =>
    if records.isEmpty then
      (db, .apiError "No valid records found in file" 400)
    else if !overwrite && db.cashFlowEntries.any (cashFlowKeyMatch cid y m) then
      (db, .apiError "Data already exists for this period" 400)
    else
      let kept := db.cashFlowEntries.filter (fun e => !cashFlowKeyMatch cid y m e)
      let db1 := if overwrite then { db with cashFlowEntries := kept } else db
      let valid := records.filter cashFlowRowValid
      let db2 := { db1 with cashFlowEntries :=
        db1.cashFlowEntries ++ valid.map (mkCashFlowEntry cid y m) }
      let db3 := { db2 with periods := upsertPeriod db2.periods cid y m }
      let db4 := { db3 with uploadHistory := db3.uploadHistory ++
        [{ cooperativeId := cid, userId := uid, year := y, month := m,
           module := "cash_flow", status := "success",
           recordsCount := valid.length, errorMessage := none }] }
      (db4, .success valid.length)

/-- `uploadMembershipFees` (upload.controller.ts lines 325-447) from the point
where the file has been parsed and mapped. -/
def uploadMembershipFees (db : DB) (cid uid : String) (y m : Nat) (overwrite : Bool)
    (parsed : Except String (List RawFeeRow)) : DB × UploadOutcome :=
  match parsed with
  | .error _ => (db, .apiError "Failed to parse file" 400)
  | .ok records =>
    if records.isEmpty then
      (db, .apiError "No valid records found in file" 400)
    else if !overwrite && db.membershipFees.any (feeKeyMatch cid y m) then
      (db, .apiError "Data already exists for this period" 400)
    else
      let kept := db.membershipFees.filter (fun e => !feeKeyMatch cid y m e)
      let db1 := if overwrite then { db with membershipFees := kept } else db
      let valid := records.filter feeRowValid
      let db2 := { db1 with membershipFees :=
        db1.membershipFees ++ valid.map (mkMembershipFee cid y m) }
      let db3 := { db2 with periods := upsertPeriod db2.periods cid y m }
      let db4 := { db3 with uploadHistory := db3.uploadHistory ++
        [{ cooperativeId := cid, userId := uid, year := y, month := m,
           module := "membership_fees", status := "success",
           recordsCount := valid.length, errorMessage := none }] }
      (db4, .success valid.length)

/-- `uploadRatios` (upload.controller.ts lines 450-570) from the point where
the file has been parsed and mapped: no existence check is performed; each
valid row is upserted on (cooperativeId, year, month, name). -/
def uploadRatios (db : DB) (cid uid : String) (y m : Nat) (overwrite : Bool)
    (parsed : Except String (List RawRatioRow)) : DB × UploadOutcome :=
  match parsed with
  | .error _ => (db, .apiError "Failed to parse file" 400)
  | .ok records =>
    if records.isEmpty then
      (db, .apiError "No valid records found in file" 400)
    else
      let kept := db.financialRatios.filter (fun e => !ratioPeriodMatch cid y m e)
      let db1 := if overwrite then { db with financialRatios := kept } else db
      let valid := records.filter ratioRowValid
      let newRatios := valid.foldl
        (fun l r => upsertRatio l (mkFinancialRatio cid y m r)) db1.financialRatios
      let db2 := { db1 with financialRatios := newRatios }
      let db3 := { db2 with periods := upsertPeriod db2.periods cid y m }
      let db4 := { db3 with uploadHistory := db3.uploadHistory ++
        [{ cooperativeId := cid, userId := uid, year := y, month := m,
           module := "ratios", status := "success",
           recordsCount := valid.length, errorMessage := none }] }
      (db4, .success valid.length)

/-- The persisted balance sheet rows of one (cooperativeId, year, month) slice. -/
def balanceRowsFor (db : DB) (cid : String) (y m : Nat) : List BalanceSheetEntry :=
  db.balanceEntries.filter (balanceKeyMatch cid y m)

/-- The persisted cash flow rows of one (cooperativeId, year, month) slice. -/
def cashFlowRowsFor (db : DB) (cid : String) (y m : Nat) : List CashFlowEntry :=
  db.cashFlowEntries.filter (cashFlowKeyMatch cid y m)

/-- The persisted membership fee rows of one (cooperativeId, year, month) slice. -/
def feeRowsFor (db : DB) (cid : String) (y m : Nat) : List MembershipFee :=
  db.membershipFees.filter (feeKeyMatch cid y m)

/-- The summary computed by `getBalanceSheet` (financial.controller.ts lines
158-176): totals from the reduce over category-filtered entries, and
`isBalanced` from `Math.abs(totalAssets - (totalLiabilities + totalEquity)) < 0.01`. -/
structure BalanceSheetSummary where
  totalAssets : ℚ
  totalLiabilities : ℚ
  totalEquity : ℚ
  isBalanced : Bool
deriving DecidableEq, Repr

/-- `getBalanceSheet` summary computation over the entries of a period. -/
def balanceSheetSummary (entries : List BalanceSheetEntry) : BalanceSheetSummary :=
  let totalAssets := (entries.filter (fun e => e.category == .assets)).foldl
    (fun sum e => sum + e.finalDebit - e.finalCredit) 0
  let totalLiabilities := (entries.filter (fun e => e.category == .liabilities)).foldl
    (fun sum e => sum + e.finalCredit - e.finalDebit) 0
  let totalEquity := (entries.filter (fun e => e.category == .equity)).foldl
    (fun sum e => sum + e.finalCredit - e.finalDebit) 0
  { totalAssets := totalAssets
    totalLiabilities := totalLiabilities
    totalEquity := totalEquity
    isBalanced := decide (|totalAssets - (totalLiabilities + totalEquity)| < 1/100) }

/-- `getBalanceSheet` (financial.controller.ts lines 142-182): returns the
period entries together with their summary; it never rejects the data. -/
def getBalanceSheet (db : DB) (cid : String) (y m : Nat) :
    List BalanceSheetEntry × BalanceSheetSummary :=
  let entries := balanceRowsFor db cid y m
  (entries, balanceSheetSummary entries)

/-- Modelled from the spec: the repository source contains no `computeRatios`
implementation (the Ratio Engine of spec section 4.3 is absent from the code);
the predecessor-period rule is taken from the spec words: month 1 has
predecessor month 12 of year minus 1, any other month m has predecessor m - 1
of the same year. -/
def previousPeriod (y m : Nat) : Nat × Nat :=
  if m = 1 then (y - 1, 12) else (y, m - 1)

/-- Modelled from the spec: trend assignment of the absent Ratio Engine,
taken from the spec words: stable when no prior value exists, stable when the
absolute difference is at most 0.01, otherwise up when current exceeds
previous and down when it is below. -/
def computeTrend (previous : Option ℚ) (current : ℚ) : Trend :=
  match previous with
  | none => .stable
  | some p => if |current - p| ≤ 1/100 then .stable
              else if current > p then .up else .down

/-- The delete step of the balance sheet overwrite path
(`prisma.balanceSheetEntry.deleteMany`). -/
def balanceDeleteStep (cid : String) (y m : Nat) (db : DB) : DB :=
  let kept := db.balanceEntries.filter (fun e => !balanceKeyMatch cid y m e)
  { db with balanceEntries := kept }

/-- The insert step of the balance sheet path
(`prisma.balanceSheetEntry.createMany`). -/
def balanceInsertStep (rows : List BalanceSheetEntry) (db : DB) : DB :=
  { db with balanceEntries := db.balanceEntries ++ rows }

/-- The period upsert step (`prisma.period.upsert`). -/
def periodStep (cid : String) (y m : Nat) (db : DB) : DB :=
  { db with periods := upsertPeriod db.periods cid y m }

/-- The history append step (`prisma.uploadHistory.create`). -/
def historyStep (h : UploadHistoryEntry) (db : DB) : DB :=
  { db with uploadHistory := db.uploadHistory ++ [h] }

/-- The four storage statements run by `uploadBalanceSheet` on the
overwrite path, in source order.  Each is a separate awaited prisma call;
the source wraps them in no transaction. -/
def balanceOverwriteSteps (cid uid : String) (y m : Nat)
    (records : List RawBalanceRow) : List (DB → DB) :=
  [balanceDeleteStep cid y m,
   balanceInsertStep ((records.filter balanceRowValid).map (mkBalanceSheetEntry cid y m)),
   periodStep cid y m,
   historyStep { cooperativeId := cid, userId := uid, year := y, month := m,
                 module := "balance_sheet", status := "success",
                 recordsCount := (records.filter balanceRowValid).length,
                 errorMessage := none }]

/-- Run the first `k` storage statements: the state visible when a failure
interrupts the sequence after `k` completed statements. -/
def runFirstSteps (db : DB) (steps : List (DB → DB)) (k : Nat) : DB :=
  (steps.take k).foldl (fun d f => f d) db

/-- A ratio slice holds a row carrying the given natural key. -/
def ratioHasKey (l : List FinancialRatio) (cid : String) (y m : Nat) (n : String) : Prop :=
  ∃ e ∈ l, e.cooperativeId = cid ∧ e.year = y ∧ e.month = m ∧ e.name = n

/-- A well-formed mapped balance row used by concrete checks. -/
def sampleBalanceRow : RawBalanceRow :=
  { accountCode := some "1100", accountName := some "Caja"
    category := some "Activo", amount := some 100, parentAccount := none }

/-- A mapped row with no recognized column at all (every field absent). -/
def blankBalanceRow : RawBalanceRow :=
  { accountCode := none, accountName := none
    category := none, amount := none, parentAccount := none }

/-- A well-formed mapped cash flow row used by concrete checks. -/
def sampleCashFlowRow : RawCashFlowRow :=
  { category := some "Operacion", description := some "Ventas", amount := some 50 }

/-- A well-formed mapped fee row with no status cell. -/
def sampleFeeRow : RawFeeRow :=
  { memberId := some "M001", memberName := some "Ana"
    expectedContribution := some 500, paymentMade := some 200, status := none }

/-- A mapped fee row fully paid but carrying an unrecognized status token. -/
def unknownStatusFeeRow : RawFeeRow :=
  { memberId := some "M002", memberName := some "Luis"
    expectedContribution := some 100, paymentMade := some 100
    status := some "desconocido" }

/-- A well-formed mapped ratio row used by concrete checks. -/
def sampleRatioRow : RawRatioRow :=
  { name := some "Current Ratio", value := some (5/2)
    trend := some "subiendo", description := none }

/-- A pre-existing balance sheet row for period (coop-1, 2025, 6). -/
def oldBalanceEntry : BalanceSheetEntry :=
  { cooperativeId := "coop-1", year := 2025, month := 6
    accountCode := "9999", accountName := "Old account", category := .liabilities
    subcategory := none, initialDebit := 0, initialCredit := 0
    periodDebit := 0, periodCredit := 0, finalDebit := 0, finalCredit := 7 }

/-- A pre-existing cash flow row for period (coop-1, 2025, 6). -/
def oldCashFlowEntry : CashFlowEntry :=
  { cooperativeId := "coop-1", year := 2025, month := 6
    description := "Old movement", category := .operating, amount := 3 }

/-- A pre-existing membership fee row for period (coop-1, 2025, 6). -/
def oldFeeEntry : MembershipFee :=
  { cooperativeId := "coop-1", year := 2025, month := 6
    memberId := "M009", memberName := "Vieja", expectedContribution := 500
    paymentMade := 500, debt := 0, status := .up_to_date }

/-- A pre-existing financial ratio row for period (coop-1, 2025, 6). -/
def oldRatioEntry : FinancialRatio :=
  { cooperativeId := "coop-1", year := 2025, month := 6
    name := "Current Ratio", value := 1, trend := .down, description := some "old" }

/-- A database holding one pre-existing row per module for (coop-1, 2025, 6). -/
def dbWithOld : DB :=
  { balanceEntries := [oldBalanceEntry]
    cashFlowEntries := [oldCashFlowEntry]
    membershipFees := [oldFeeEntry]
    financialRatios := [oldRatioEntry]
    periods := [("coop-1", 2025, 6)]
    uploadHistory := [] }

/-! ## Helper lemmas -/

theorem filter_not_filter {α : Type} (p : α → Bool) (l : List α) :
    (l.filter fun a => !p a).filter p = [] := by
  induction l with
  | nil => rfl
  | cons a t ih =>
    by_cases h : p a = true
    · simp [List.filter_cons, h, ih]
    · simp only [Bool.not_eq_true] at h
      simp [List.filter_cons, h, ih]

theorem foldl_add_sub {α : Type} (f g : α → ℚ) (l : List α) (init : ℚ) :
    l.foldl (fun sum e => sum + f e - g e) init
      = init + (l.map fun e => f e - g e).sum := by
  induction l generalizing init with
  | nil => simp
  | cons a t ih =>
    simp only [List.foldl_cons, List.map_cons, List.sum_cons, ih]
    ring

theorem balanceKeyMatch_mk (cid : String) (y m : Nat) (r : RawBalanceRow) :
    balanceKeyMatch cid y m (mkBalanceSheetEntry cid y m r) = true := by
  simp [balanceKeyMatch, mkBalanceSheetEntry]

theorem cashFlowKeyMatch_mk (cid : String) (y m : Nat) (r : RawCashFlowRow) :
    cashFlowKeyMatch cid y m (mkCashFlowEntry cid y m r) = true := by
  simp [cashFlowKeyMatch, mkCashFlowEntry]

theorem feeKeyMatch_mk (cid : String) (y m : Nat) (r : RawFeeRow) :
    feeKeyMatch cid y m (mkMembershipFee cid y m r) = true := by
  simp [feeKeyMatch, mkMembershipFee]

theorem filter_map_all {α β : Type} (f : α → β) (p : β → Bool) (l : List α)
    (h : ∀ x, p (f x) = true) : (l.map f).filter p = l.map f := by
  induction l with
  | nil => rfl
  | cons a t ih => simp [List.filter_cons, h, ih]

theorem uploadBalanceSheet_overwrite_result (db : DB) (cid uid : String) (y m : Nat)
    (records : List RawBalanceRow) (h : records ≠ []) :
    (uploadBalanceSheet db cid uid y m true (.ok records)).1.balanceEntries =
      db.balanceEntries.filter (fun e => !balanceKeyMatch cid y m e)
        ++ (records.filter balanceRowValid).map (mkBalanceSheetEntry cid y m)
    ∧ (uploadBalanceSheet db cid uid y m true (.ok records)).2 =
        .success (records.filter balanceRowValid).length := by
  cases records with
  | nil => exact absurd rfl h
  | cons a t => constructor <;> simp [uploadBalanceSheet]

theorem uploadCashFlow_overwrite_result (db : DB) (cid uid : String) (y m : Nat)
    (records : List RawCashFlowRow) (h : records ≠ []) :
    (uploadCashFlow db cid uid y m true (.ok records)).1.cashFlowEntries =
      db.cashFlowEntries.filter (fun e => !cashFlowKeyMatch cid y m e)
        ++ (records.filter cashFlowRowValid).map (mkCashFlowEntry cid y m)
    ∧ (uploadCashFlow db cid uid y m true (.ok records)).2 =
        .success (records.filter cashFlowRowValid).length := by
  cases records with
  | nil => exact absurd rfl h
  | cons a t => constructor <;> simp [uploadCashFlow]

theorem uploadMembershipFees_overwrite_result (db : DB) (cid uid : String) (y m : Nat)
    (records : List RawFeeRow) (h : records ≠ []) :
    (uploadMembershipFees db cid uid y m true (.ok records)).1.membershipFees =
      db.membershipFees.filter (fun e => !feeKeyMatch cid y m e)
        ++ (records.filter feeRowValid).map (mkMembershipFee cid y m)
    ∧ (uploadMembershipFees db cid uid y m true (.ok records)).2 =
        .success (records.filter feeRowValid).length := by
  cases records with
  | nil => exact absurd rfl h
  | cons a t => constructor <;> simp [uploadMembershipFees]

theorem balanceRowsFor_overwrite (db : DB) (cid uid : String) (y m : Nat)
    (records : List RawBalanceRow) (h : records ≠ []) :
    balanceRowsFor (uploadBalanceSheet db cid uid y m true (.ok records)).1 cid y m =
      (records.filter balanceRowValid).map (mkBalanceSheetEntry cid y m) := by
  unfold balanceRowsFor
  rw [(uploadBalanceSheet_overwrite_result db cid uid y m records h).1,
    List.filter_append, filter_not_filter]
  simp only [List.nil_append]
  exact filter_map_all _ _ _ (balanceKeyMatch_mk cid y m)

theorem cashFlowRowsFor_overwrite (db : DB) (cid uid : String) (y m : Nat)
    (records : List RawCashFlowRow) (h : records ≠ []) :
    cashFlowRowsFor (uploadCashFlow db cid uid y m true (.ok records)).1 cid y m =
      (records.filter cashFlowRowValid).map (mkCashFlowEntry cid y m) := by
  unfold cashFlowRowsFor
  rw [(uploadCashFlow_overwrite_result db cid uid y m records h).1,
    List.filter_append, filter_not_filter]
  simp only [List.nil_append]
  exact filter_map_all _ _ _ (cashFlowKeyMatch_mk cid y m)

theorem feeRowsFor_overwrite (db : DB) (cid uid : String) (y m : Nat)
    (records : List RawFeeRow) (h : records ≠ []) :
    feeRowsFor (uploadMembershipFees db cid uid y m true (.ok records)).1 cid y m =
      (records.filter feeRowValid).map (mkMembershipFee cid y m) := by
  unfold feeRowsFor
  rw [(uploadMembershipFees_overwrite_result db cid uid y m records h).1,
    List.filter_append, filter_not_filter]
  simp only [List.nil_append]
  exact filter_map_all _ _ _ (feeKeyMatch_mk cid y m)

/-! ## Claim theorems -/

/-- C7: the balance sheet summary computes totalAssets as the sum of
finalDebit minus finalCredit over asset rows, totalLiabilities and
totalEquity as the sum of finalCredit minus finalDebit over liability and
equity rows, and isBalanced holds exactly when the absolute imbalance is
below 0.01; getBalanceSheet always reports the full entry list unchanged,
never rejecting unbalanced data. -/
theorem balanceSheetSummary_totals_and_report (entries : List BalanceSheetEntry) :
    (balanceSheetSummary entries).totalAssets =
      ((entries.filter fun e => e.category == .assets).map
        fun e => e.finalDebit - e.finalCredit).sum
    ∧ (balanceSheetSummary entries).totalLiabilities =
      ((entries.filter fun e => e.category == .liabilities).map
        fun e => e.finalCredit - e.finalDebit).sum
    ∧ (balanceSheetSummary entries).totalEquity =
      ((entries.filter fun e => e.category == .equity).map
        fun e => e.finalCredit - e.finalDebit).sum
    ∧ ((balanceSheetSummary entries).isBalanced = true ↔
        |(balanceSheetSummary entries).totalAssets -
          ((balanceSheetSummary entries).totalLiabilities +
            (balanceSheetSummary entries).totalEquity)| < 1/100)
    ∧ ∀ (db : DB) (cid : String) (y m : Nat),
        (getBalanceSheet db cid y m).1 = balanceRowsFor db cid y m := by
  refine ⟨?_, ?_, ?_, ?_, fun db cid y m => rfl⟩
  · simp [balanceSheetSummary, foldl_add_sub]
  · simp [balanceSheetSummary, foldl_add_sub]
  · simp [balanceSheetSummary, foldl_add_sub]
  · simp only [balanceSheetSummary]
    exact decide_eq_true_iff

/-- C8 (spec-modelled; the Ratio Engine is absent from the source): the trend
of a ratio is computed against the same-named ratio of the immediately
preceding calendar month, with month 1 wrapping to month 12 of the prior
year; stable when no prior value exists or the difference is within 0.01,
up when current exceeds previous, down when below. -/
theorem computeTrend_previous_month_rule :
    (∀ cur : ℚ, computeTrend none cur = .stable)
    ∧ (∀ p cur : ℚ, |cur - p| ≤ 1/100 → computeTrend (some p) cur = .stable)
    ∧ (∀ p cur : ℚ, ¬ |cur - p| ≤ 1/100 → p < cur → computeTrend (some p) cur = .up)
    ∧ (∀ p cur : ℚ, ¬ |cur - p| ≤ 1/100 → cur < p → computeTrend (some p) cur = .down)
    ∧ (∀ y : Nat, previousPeriod y 1 = (y - 1, 12))
    ∧ (∀ y m : Nat, m ≠ 1 → previousPeriod y m = (y, m - 1)) := by
  refine ⟨fun cur => rfl, ?_, ?_, ?_, fun y => rfl, ?_⟩
  · intro p cur h
    show (if |cur - p| ≤ 1/100 then Trend.stable
      else if cur > p then Trend.up else Trend.down) = Trend.stable
    rw [if_pos h]
  · intro p cur h hgt
    show (if |cur - p| ≤ 1/100 then Trend.stable
      else if cur > p then Trend.up else Trend.down) = Trend.up
    rw [if_neg h, if_pos hgt]
  · intro p cur h hlt
    show (if |cur - p| ≤ 1/100 then Trend.stable
      else if cur > p then Trend.up else Trend.down) = Trend.down
    rw [if_neg h, if_neg (lt_asymm hlt)]
  · intro y m hm
    simp [previousPeriod, hm]

/-- Witness for C8 at the spec's concrete cases: prior 5.00 with current
5.00 is stable, current 5.50 is up, current 4.40 is down, and a missing
prior value is stable; month 1 of 2025 wraps to month 12 of 2024. -/
theorem computeTrend_previous_month_rule_witness :
    computeTrend none 5 = .stable
    ∧ (|(5 : ℚ) - 5| ≤ 1/100 ∧ computeTrend (some 5) 5 = .stable)
    ∧ (¬ |(11/2 : ℚ) - 5| ≤ 1/100 ∧ (5 : ℚ) < 11/2
        ∧ computeTrend (some 5) (11/2) = .up)
    ∧ (¬ |(22/5 : ℚ) - 5| ≤ 1/100 ∧ (22/5 : ℚ) < 5
        ∧ computeTrend (some 5) (22/5) = .down)
    ∧ previousPeriod 2025 1 = (2024, 12)
    ∧ (7 ≠ 1 ∧ previousPeriod 2025 7 = (2025, 6)) :=
  have hup : ¬ |(11/2 : ℚ) - 5| ≤ 1/100 := by
    rw [show (11/2 : ℚ) - 5 = 1/2 by norm_num,
      abs_of_pos (by norm_num : (0 : ℚ) < 1/2)]
    norm_num
  have hdown : ¬ |(22/5 : ℚ) - 5| ≤ 1/100 := by
    rw [show (22/5 : ℚ) - 5 = -(3/5) by norm_num, abs_neg,
      abs_of_pos (by norm_num : (0 : ℚ) < 3/5)]
    norm_num
  ⟨computeTrend_previous_month_rule.1 5,
   ⟨by norm_num, computeTrend_previous_month_rule.2.1 5 5 (by norm_num)⟩,
   ⟨hup, by norm_num,
     computeTrend_previous_month_rule.2.2.1 5 (11/2) hup (by norm_num)⟩,
   ⟨hdown, by norm_num,
     computeTrend_previous_month_rule.2.2.2.1 5 (22/5) hdown (by norm_num)⟩,
   computeTrend_previous_month_rule.2.2.2.2.1 2025,
   ⟨by norm_num, computeTrend_previous_month_rule.2.2.2.2.2 2025 7 (by norm_num)⟩⟩

/-- C6: a membership fee row built by the ingestion stores
debt = max(expected - paid, 0); when the source supplied no recognized
status token the status is up_to_date exactly when the stored debt is 0 and
with_debt otherwise, and a recognized explicit token is persisted as-is. -/
theorem mkMembershipFee_debt_status (cid : String) (y m : Nat) (r : RawFeeRow) :
    (mkMembershipFee cid y m r).debt =
      max (orZero r.expectedContribution - orZero r.paymentMade) 0
    ∧ (feeStatusMap (jsToLower (jsStr r.status)) = none →
        ((mkMembershipFee cid y m r).status = .up_to_date ↔
          (mkMembershipFee cid y m r).debt = 0)
        ∧ ((mkMembershipFee cid y m r).status = .with_debt ↔
          (mkMembershipFee cid y m r).debt ≠ 0))
    ∧ (∀ s, feeStatusMap (jsToLower (jsStr r.status)) = some s →
        (mkMembershipFee cid y m r).status = s) := by
  by_cases hd : 0 < orZero r.expectedContribution - orZero r.paymentMade
  · have hdebt : (mkMembershipFee cid y m r).debt =
        orZero r.expectedContribution - orZero r.paymentMade := by
      simp [mkMembershipFee, hd]
    refine ⟨?_, ?_, ?_⟩
    · rw [hdebt, max_eq_left hd.le]
    · intro hnone
      have hst : (mkMembershipFee cid y m r).status = .with_debt := by
        simp [mkMembershipFee, hd, hnone]
      rw [hst, hdebt]
      exact ⟨by simp [ne_of_gt hd], by simp [ne_of_gt hd]⟩
    · intro s hs
      simp [mkMembershipFee, hs]
  · have hdebt : (mkMembershipFee cid y m r).debt = 0 := by
      simp [mkMembershipFee, hd]
    refine ⟨?_, ?_, ?_⟩
    · rw [hdebt, max_eq_right (not_lt.mp hd)]
    · intro hnone
      have hst : (mkMembershipFee cid y m r).status = .up_to_date := by
        simp [mkMembershipFee, hd, hnone]
      rw [hst, hdebt]
      exact ⟨by simp, by simp⟩
    · intro s hs
      simp [mkMembershipFee, hs]

/-- Witness for C6 at a fee row with no status cell, expected 500 and paid
200: debt is 300 and the derived status rules hold. -/
theorem mkMembershipFee_debt_status_witness :
    feeStatusMap (jsToLower (jsStr sampleFeeRow.status)) = none
    ∧ (mkMembershipFee "coop-1" 2025 6 sampleFeeRow).debt =
        max (orZero sampleFeeRow.expectedContribution -
          orZero sampleFeeRow.paymentMade) 0
    ∧ ((mkMembershipFee "coop-1" 2025 6 sampleFeeRow).status = .up_to_date ↔
        (mkMembershipFee "coop-1" 2025 6 sampleFeeRow).debt = 0)
    ∧ ((mkMembershipFee "coop-1" 2025 6 sampleFeeRow).status = .with_debt ↔
        (mkMembershipFee "coop-1" 2025 6 sampleFeeRow).debt ≠ 0) :=
  ⟨by decide,
   (mkMembershipFee_debt_status "coop-1" 2025 6 sampleFeeRow).1,
   ((mkMembershipFee_debt_status "coop-1" 2025 6 sampleFeeRow).2.1 (by decide)).1,
   ((mkMembershipFee_debt_status "coop-1" 2025 6 sampleFeeRow).2.1 (by decide)).2⟩

/-- C3 counterexample: when acquiring the raw rows fails, the balance sheet
upload returns a parse error to the caller but writes no UploadHistory row
at all — the claimed failed-status audit row does not exist. -/
theorem uploadBalanceSheet_parse_error_writes_no_history :
    uploadBalanceSheet dbWithOld "coop-1" "u1" 2025 6 true (.error "ERP unreachable") =
      (dbWithOld, .apiError "Failed to parse file. Please check the file format." 400)
    ∧ (uploadBalanceSheet dbWithOld "coop-1" "u1" 2025 6 true
        (.error "ERP unreachable")).1.uploadHistory = [] :=
  ⟨rfl, rfl⟩

/-- C3 amended: when acquiring the raw rows fails, every upload controller
returns a parse error and leaves the whole database unchanged — no financial
rows are written and no UploadHistory row (failed or otherwise) is recorded. -/
theorem upload_parse_failure_no_writes (db : DB) (cid uid : String) (y m : Nat)
    (overwrite : Bool) (msg : String) :
    uploadBalanceSheet db cid uid y m overwrite (.error msg) =
      (db, .apiError "Failed to parse file. Please check the file format." 400)
    ∧ uploadCashFlow db cid uid y m overwrite (.error msg) =
      (db, .apiError "Failed to parse file" 400)
    ∧ uploadMembershipFees db cid uid y m overwrite (.error msg) =
      (db, .apiError "Failed to parse file" 400)
    ∧ uploadRatios db cid uid y m overwrite (.error msg) =
      (db, .apiError "Failed to parse file" 400) :=
  ⟨rfl, rfl, rfl, rfl⟩

/-- C2 counterexample: a mapped record with no recognized column passes the
emptiness check but fails the validity filter, so the upload reports success
with recordsCount 0 and records a success history row — it does not fail
with a no-valid-records error. -/
theorem uploadBalanceSheet_success_with_zero_valid :
    [blankBalanceRow].filter balanceRowValid = []
    ∧ (uploadBalanceSheet DB.empty "coop-1" "u1" 2025 6 false
        (.ok [blankBalanceRow])).2 = .success 0
    ∧ ((uploadBalanceSheet DB.empty "coop-1" "u1" 2025 6 false
        (.ok [blankBalanceRow])).1.uploadHistory.map
          fun h => (h.module, h.status, h.recordsCount)) =
        [("balance_sheet", "success", 0)]
    ∧ (uploadBalanceSheet DB.empty "coop-1" "u1" 2025 6 false
        (.ok [blankBalanceRow])).1.balanceEntries = [] := by
  decide

/-- C2 amended: an empty mapped record list is rejected with the
no-valid-records error and no writes, but a non-empty record list whose rows
all fail the validity filter is reported as success with recordsCount 0:
no financial rows are inserted, yet the Period is upserted and a success
history row with count 0 is recorded. -/
theorem uploadBalanceSheet_zero_records_behavior (db : DB) (cid uid : String)
    (y m : Nat) (overwrite : Bool) (records : List RawBalanceRow) :
    uploadBalanceSheet db cid uid y m overwrite (.ok []) =
      (db, .apiError "No valid records found in file" 400)
    ∧ (records ≠ [] → records.filter balanceRowValid = [] →
        (overwrite = true ∨ db.balanceEntries.any (balanceKeyMatch cid y m) = false) →
        (uploadBalanceSheet db cid uid y m overwrite (.ok records)).2 = .success 0
        ∧ (uploadBalanceSheet db cid uid y m overwrite (.ok records)).1.balanceEntries =
            (if overwrite then
              db.balanceEntries.filter (fun e => !balanceKeyMatch cid y m e)
             else db.balanceEntries)
        ∧ (uploadBalanceSheet db cid uid y m overwrite (.ok records)).1.uploadHistory =
            db.uploadHistory ++
              [{ cooperativeId := cid, userId := uid, year := y, month := m,
                 module := "balance_sheet", status := "success",
                 recordsCount := 0, errorMessage := none }]
        ∧ (uploadBalanceSheet db cid uid y m overwrite (.ok records)).1.periods =
            upsertPeriod db.periods cid y m) := by
  constructor
  · rfl
  · intro hne hval hbranch
    cases records with
    | nil => exact absurd rfl hne
    | cons a t =>
      cases overwrite with
      | true =>
        refine ⟨?_, ?_, ?_, ?_⟩ <;> simp [uploadBalanceSheet, hval]
      | false =>
        have hex : db.balanceEntries.any (balanceKeyMatch cid y m) = false := by
          rcases hbranch with h | h
          · exact absurd h (by simp)
          · exact h
        refine ⟨?_, ?_, ?_, ?_⟩ <;> simp [uploadBalanceSheet, hval, hex]

/-- Witness for C2 amended at a database with pre-existing rows, overwrite
enabled and one blank mapped record. -/
theorem uploadBalanceSheet_zero_records_behavior_witness :
    ([blankBalanceRow] ≠ ([] : List RawBalanceRow))
    ∧ [blankBalanceRow].filter balanceRowValid = []
    ∧ ((uploadBalanceSheet dbWithOld "coop-1" "u1" 2025 6 true
          (.ok [blankBalanceRow])).2 = .success 0
       ∧ (uploadBalanceSheet dbWithOld "coop-1" "u1" 2025 6 true
            (.ok [blankBalanceRow])).1.balanceEntries =
          (if true then
            dbWithOld.balanceEntries.filter (fun e => !balanceKeyMatch "coop-1" 2025 6 e)
           else dbWithOld.balanceEntries)
       ∧ (uploadBalanceSheet dbWithOld "coop-1" "u1" 2025 6 true
            (.ok [blankBalanceRow])).1.uploadHistory =
          dbWithOld.uploadHistory ++
            [{ cooperativeId := "coop-1", userId := "u1", year := 2025, month := 6,
               module := "balance_sheet", status := "success",
               recordsCount := 0, errorMessage := none }]
       ∧ (uploadBalanceSheet dbWithOld "coop-1" "u1" 2025 6 true
            (.ok [blankBalanceRow])).1.periods =
          upsertPeriod dbWithOld.periods "coop-1" 2025 6) :=
  ⟨by decide, by decide,
   (uploadBalanceSheet_zero_records_behavior dbWithOld "coop-1" "u1" 2025 6 true
     [blankBalanceRow]).2 (by decide) (by decide) (Or.inl rfl)⟩

/-- C4: for each raw module, when rows already exist for the exact period and
overwrite is false, the upload rejects with the data-already-exists error and
returns the database untouched — no financial rows are created or modified. -/
theorem upload_no_overwrite_rejects (db : DB) (cid uid : String) (y m : Nat)
    (brecs : List RawBalanceRow) (crecs : List RawCashFlowRow) (frecs : List RawFeeRow)
    (hb : brecs ≠ []) (hc : crecs ≠ []) (hf : frecs ≠ [])
    (hbe : db.balanceEntries.any (balanceKeyMatch cid y m) = true)
    (hce : db.cashFlowEntries.any (cashFlowKeyMatch cid y m) = true)
    (hfe : db.membershipFees.any (feeKeyMatch cid y m) = true) :
    uploadBalanceSheet db cid uid y m false (.ok brecs) =
      (db, .apiError "Data already exists for this period. Enable overwrite to replace." 400)
    ∧ uploadCashFlow db cid uid y m false (.ok crecs) =
      (db, .apiError "Data already exists for this period" 400)
    ∧ uploadMembershipFees db cid uid y m false (.ok frecs) =
      (db, .apiError "Data already exists for this period" 400) := by
  refine ⟨?_, ?_, ?_⟩
  · cases brecs with
    | nil => exact absurd rfl hb
    | cons a t => simp [uploadBalanceSheet, hbe]
  · cases crecs with
    | nil => exact absurd rfl hc
    | cons a t => simp [uploadCashFlow, hce]
  · cases frecs with
    | nil => exact absurd rfl hf
    | cons a t => simp [uploadMembershipFees, hfe]

/-- Witness for C4 at a database holding one pre-existing row per module for
(coop-1, 2025, 6) and one well-formed record per module. -/
theorem upload_no_overwrite_rejects_witness :
    uploadBalanceSheet dbWithOld "coop-1" "u1" 2025 6 false (.ok [sampleBalanceRow]) =
      (dbWithOld,
       .apiError "Data already exists for this period. Enable overwrite to replace." 400)
    ∧ uploadCashFlow dbWithOld "coop-1" "u1" 2025 6 false (.ok [sampleCashFlowRow]) =
      (dbWithOld, .apiError "Data already exists for this period" 400)
    ∧ uploadMembershipFees dbWithOld "coop-1" "u1" 2025 6 false (.ok [sampleFeeRow]) =
      (dbWithOld, .apiError "Data already exists for this period" 400) :=
  upload_no_overwrite_rejects dbWithOld "coop-1" "u1" 2025 6
    [sampleBalanceRow] [sampleCashFlowRow] [sampleFeeRow]
    (by decide) (by decide) (by decide) (by decide) (by decide) (by decide)

/-- C5: for each raw module, ingesting with overwrite enabled leaves the
period+module slice equal to the normalized record set, so running the same
ingestion twice yields the same final slice after each call — the second call
deletes the rows of the first and re-inserts an equal set, no duplication. -/
theorem upload_overwrite_twice_idempotent (db : DB) (cid uid : String) (y m : Nat)
    (brecs : List RawBalanceRow) (crecs : List RawCashFlowRow) (frecs : List RawFeeRow)
    (hb : brecs ≠ []) (hc : crecs ≠ []) (hf : frecs ≠ []) :
    (balanceRowsFor (uploadBalanceSheet db cid uid y m true (.ok brecs)).1 cid y m =
      balanceRowsFor (uploadBalanceSheet
        (uploadBalanceSheet db cid uid y m true (.ok brecs)).1
        cid uid y m true (.ok brecs)).1 cid y m
     ∧ balanceRowsFor (uploadBalanceSheet db cid uid y m true (.ok brecs)).1 cid y m =
        (brecs.filter balanceRowValid).map (mkBalanceSheetEntry cid y m))
    ∧ (cashFlowRowsFor (uploadCashFlow db cid uid y m true (.ok crecs)).1 cid y m =
        cashFlowRowsFor (uploadCashFlow
          (uploadCashFlow db cid uid y m true (.ok crecs)).1
          cid uid y m true (.ok crecs)).1 cid y m
       ∧ cashFlowRowsFor (uploadCashFlow db cid uid y m true (.ok crecs)).1 cid y m =
          (crecs.filter cashFlowRowValid).map (mkCashFlowEntry cid y m))
    ∧ (feeRowsFor (uploadMembershipFees db cid uid y m true (.ok frecs)).1 cid y m =
        feeRowsFor (uploadMembershipFees
          (uploadMembershipFees db cid uid y m true (.ok frecs)).1
          cid uid y m true (.ok frecs)).1 cid y m
       ∧ feeRowsFor (uploadMembershipFees db cid uid y m true (.ok frecs)).1 cid y m =
          (frecs.filter feeRowValid).map (mkMembershipFee cid y m)) := by
  refine ⟨⟨?_, ?_⟩, ⟨?_, ?_⟩, ⟨?_, ?_⟩⟩
  · exact (balanceRowsFor_overwrite db cid uid y m brecs hb).trans
      (balanceRowsFor_overwrite _ cid uid y m brecs hb).symm
  · exact balanceRowsFor_overwrite db cid uid y m brecs hb
  · exact (cashFlowRowsFor_overwrite db cid uid y m crecs hc).trans
      (cashFlowRowsFor_overwrite _ cid uid y m crecs hc).symm
  · exact cashFlowRowsFor_overwrite db cid uid y m crecs hc
  · exact (feeRowsFor_overwrite db cid uid y m frecs hf).trans
      (feeRowsFor_overwrite _ cid uid y m frecs hf).symm
  · exact feeRowsFor_overwrite db cid uid y m frecs hf

/-- Witness for C5 at a database holding pre-existing rows and one
well-formed record per module. -/
theorem upload_overwrite_twice_idempotent_witness :
    (balanceRowsFor (uploadBalanceSheet dbWithOld "coop-1" "u1" 2025 6 true
        (.ok [sampleBalanceRow])).1 "coop-1" 2025 6 =
      balanceRowsFor (uploadBalanceSheet
        (uploadBalanceSheet dbWithOld "coop-1" "u1" 2025 6 true (.ok [sampleBalanceRow])).1
        "coop-1" "u1" 2025 6 true (.ok [sampleBalanceRow])).1 "coop-1" 2025 6
     ∧ balanceRowsFor (uploadBalanceSheet dbWithOld "coop-1" "u1" 2025 6 true
        (.ok [sampleBalanceRow])).1 "coop-1" 2025 6 =
        ([sampleBalanceRow].filter balanceRowValid).map
          (mkBalanceSheetEntry "coop-1" 2025 6))
    ∧ (cashFlowRowsFor (uploadCashFlow dbWithOld "coop-1" "u1" 2025 6 true
        (.ok [sampleCashFlowRow])).1 "coop-1" 2025 6 =
        cashFlowRowsFor (uploadCashFlow
          (uploadCashFlow dbWithOld "coop-1" "u1" 2025 6 true (.ok [sampleCashFlowRow])).1
          "coop-1" "u1" 2025 6 true (.ok [sampleCashFlowRow])).1 "coop-1" 2025 6
       ∧ cashFlowRowsFor (uploadCashFlow dbWithOld "coop-1" "u1" 2025 6 true
          (.ok [sampleCashFlowRow])).1 "coop-1" 2025 6 =
          ([sampleCashFlowRow].filter cashFlowRowValid).map
            (mkCashFlowEntry "coop-1" 2025 6))
    ∧ (feeRowsFor (uploadMembershipFees dbWithOld "coop-1" "u1" 2025 6 true
        (.ok [sampleFeeRow])).1 "coop-1" 2025 6 =
        feeRowsFor (uploadMembershipFees
          (uploadMembershipFees dbWithOld "coop-1" "u1" 2025 6 true (.ok [sampleFeeRow])).1
          "coop-1" "u1" 2025 6 true (.ok [sampleFeeRow])).1 "coop-1" 2025 6
       ∧ feeRowsFor (uploadMembershipFees dbWithOld "coop-1" "u1" 2025 6 true
          (.ok [sampleFeeRow])).1 "coop-1" 2025 6 =
          ([sampleFeeRow].filter feeRowValid).map (mkMembershipFee "coop-1" 2025 6)) :=
  upload_overwrite_twice_idempotent dbWithOld "coop-1" "u1" 2025 6
    [sampleBalanceRow] [sampleCashFlowRow] [sampleFeeRow]
    (by decide) (by decide) (by decide)

/-- C9 counterexample: a membership fee row with the unrecognized status token
"desconocido" and zero computed debt is persisted with status up_to_date, not
the claimed unconditional with_debt default. -/
theorem mkMembershipFee_unknown_status_not_with_debt :
    feeStatusMap (jsToLower (jsStr unknownStatusFeeRow.status)) = none
    ∧ (mkMembershipFee "coop-1" 2025 6 unknownStatusFeeRow).status = .up_to_date
    ∧ FeeStatus.up_to_date ≠ FeeStatus.with_debt := by
  have hnone : feeStatusMap (jsToLower (jsStr unknownStatusFeeRow.status)) = none := by
    decide
  refine ⟨hnone, ?_, by decide⟩
  have hzero : ¬ (0 : ℚ) <
      orZero unknownStatusFeeRow.expectedContribution -
        orZero unknownStatusFeeRow.paymentMade := by
    norm_num [unknownStatusFeeRow, orZero]
  simp [mkMembershipFee, hnone, hzero]

/-- C9 amended: an unrecognized category token still yields an accepted row
with the safe default (assets for balance sheet, operating for cash flow);
for membership fees an unrecognized status token falls back to the
debt-derived status (with_debt only when the computed debt is positive,
up_to_date otherwise), and the validity filters of all three modules ignore
the category/status cell except for requiring the cash flow category cell to
be non-empty. -/
theorem normalizer_unknown_token_defaults (cid : String) (y m : Nat) :
    (∀ r : RawBalanceRow, balanceCategoryMap (jsToLower (jsStr r.category)) = none →
      (mkBalanceSheetEntry cid y m r).category = .assets)
    ∧ (∀ r : RawCashFlowRow, cashFlowCategoryMap (jsToLower (jsStr r.category)) = none →
      (mkCashFlowEntry cid y m r).category = .operating)
    ∧ (∀ r : RawFeeRow, feeStatusMap (jsToLower (jsStr r.status)) = none →
      (mkMembershipFee cid y m r).status =
        (if 0 < orZero r.expectedContribution - orZero r.paymentMade then
          FeeStatus.with_debt else FeeStatus.up_to_date))
    ∧ (∀ (r : RawBalanceRow) (c : Option String),
        balanceRowValid { r with category := c } = balanceRowValid r)
    ∧ (∀ (r : RawCashFlowRow) (tok : String), tok ≠ "" →
        cashFlowRowValid { r with category := some tok } = present r.description)
    ∧ (∀ (r : RawFeeRow) (st : Option String),
        feeRowValid { r with status := st } = feeRowValid r) := by
  refine ⟨?_, ?_, ?_, fun r c => rfl, ?_, fun r st => rfl⟩
  · intro r h
    simp [mkBalanceSheetEntry, h]
  · intro r h
    simp [mkCashFlowEntry, h]
  · intro r h
    simp [mkMembershipFee, h]
  · intro r tok htok
    simp [cashFlowRowValid, present, htok]

/-- A balance row whose category token is in no lookup table. -/
def mysteryBalanceRow : RawBalanceRow :=
  { accountCode := some "1", accountName := some "X"
    category := some "misterio", amount := some 1, parentAccount := none }

/-- A cash flow row whose category token is in no lookup table. -/
def mysteryCashFlowRow : RawCashFlowRow :=
  { category := some "misterio", description := some "Ventas", amount := some 1 }

/-- Witness for C9 amended at unrecognized tokens for each module. -/
theorem normalizer_unknown_token_defaults_witness :
    balanceCategoryMap (jsToLower (jsStr (some "misterio"))) = none
    ∧ (mkBalanceSheetEntry "coop-1" 2025 6 mysteryBalanceRow).category = .assets
    ∧ cashFlowCategoryMap (jsToLower (jsStr (some "misterio"))) = none
    ∧ (mkCashFlowEntry "coop-1" 2025 6 mysteryCashFlowRow).category = .operating
    ∧ ("misterio" : String) ≠ ""
    ∧ cashFlowRowValid { sampleCashFlowRow with category := some "misterio" } =
        present sampleCashFlowRow.description :=
  ⟨by decide,
   (normalizer_unknown_token_defaults "coop-1" 2025 6).1 mysteryBalanceRow (by decide),
   by decide,
   (normalizer_unknown_token_defaults "coop-1" 2025 6).2.1 mysteryCashFlowRow (by decide),
   by decide,
   (normalizer_unknown_token_defaults "coop-1" 2025 6).2.2.2.2.1
     sampleCashFlowRow "misterio" (by decide)⟩

theorem upsertRatio_mem_key (l : List FinancialRatio) (row : FinancialRatio) :
    ∃ e ∈ upsertRatio l row, e.cooperativeId = row.cooperativeId
      ∧ e.year = row.year ∧ e.month = row.month ∧ e.name = row.name := by
  unfold upsertRatio
  by_cases h : l.any (ratioKeyMatch row) = true
  · rw [if_pos h]
    obtain ⟨e, he, hkey⟩ := List.any_eq_true.mp h
    refine ⟨_, List.mem_map.mpr ⟨e, he, rfl⟩, ?_⟩
    have hk := hkey
    unfold ratioKeyMatch at hk
    simp only [Bool.and_eq_true, beq_iff_eq] at hk
    obtain ⟨⟨⟨h1, h2⟩, h3⟩, h4⟩ := hk
    simp [hkey, h1, h2, h3, h4]
  · rw [if_neg h]
    exact ⟨row, by simp, rfl, rfl, rfl, rfl⟩

theorem upsertRatio_preserves_key (l : List FinancialRatio) (row : FinancialRatio)
    (cid : String) (y m : Nat) (n : String) (h : ratioHasKey l cid y m n) :
    ratioHasKey (upsertRatio l row) cid y m n := by
  obtain ⟨e, he, h1, h2, h3, h4⟩ := h
  unfold upsertRatio
  by_cases hx : l.any (ratioKeyMatch row) = true
  · rw [if_pos hx]
    refine ⟨_, List.mem_map.mpr ⟨e, he, rfl⟩, ?_, ?_, ?_, ?_⟩ <;>
      by_cases hk : ratioKeyMatch row e = true <;>
        simp [hk, h1, h2, h3, h4]
  · rw [if_neg hx]
    exact ⟨e, List.mem_append.mpr (Or.inl he), h1, h2, h3, h4⟩

theorem ratioFold_preserves_key (cid : String) (y m : Nat) (rs : List RawRatioRow)
    (l : List FinancialRatio) (n : String) (h : ratioHasKey l cid y m n) :
    ratioHasKey
      (rs.foldl (fun acc rr => upsertRatio acc (mkFinancialRatio cid y m rr)) l)
      cid y m n := by
  induction rs generalizing l with
  | nil => exact h
  | cons a t ih =>
    exact ih _ (upsertRatio_preserves_key l (mkFinancialRatio cid y m a) cid y m n h)

theorem ratioFold_has_key (cid : String) (y m : Nat) (rs : List RawRatioRow)
    (l : List FinancialRatio) (r : RawRatioRow) (hr : r ∈ rs) :
    ratioHasKey
      (rs.foldl (fun acc rr => upsertRatio acc (mkFinancialRatio cid y m rr)) l)
      cid y m (r.name.getD "") := by
  induction rs generalizing l with
  | nil => cases hr
  | cons a t ih =>
    simp only [List.foldl_cons]
    rcases List.mem_cons.mp hr with heq | hmem
    · subst heq
      apply ratioFold_preserves_key
      obtain ⟨e, he, h1, h2, h3, h4⟩ :=
        upsertRatio_mem_key l (mkFinancialRatio cid y m r)
      exact ⟨e, he, h1, h2, h3, h4⟩
    · exact ih _ hmem

theorem upsertRatio_replaces (l : List FinancialRatio) (row e : FinancialRatio)
    (he : e ∈ upsertRatio l row) (hk : ratioKeyMatch row e = true) :
    e.value = row.value ∧ e.trend = row.trend ∧ e.description = row.description := by
  unfold upsertRatio at he
  by_cases hx : l.any (ratioKeyMatch row) = true
  · rw [if_pos hx] at he
    obtain ⟨e0, he0, heq⟩ := List.mem_map.mp he
    by_cases hk0 : ratioKeyMatch row e0 = true
    · rw [if_pos hk0] at heq
      subst heq
      exact ⟨rfl, rfl, rfl⟩
    · rw [if_neg hk0] at heq
      subst heq
      exact absurd hk hk0
  · rw [if_neg hx] at he
    rcases List.mem_append.mp he with hl | hr
    · exact absurd (List.any_eq_true.mpr ⟨e, hl, hk⟩) hx
    · have heq : e = row := by simpa using hr
      subst heq
      exact ⟨rfl, rfl, rfl⟩

/-- C10: uploadRatios with overwrite=false performs no existence check, so it
never rejects with a data-already-exists error: it reports success with the
valid record count, every valid row ends up present under its
(cooperativeId, year, month, name) key, and an upsert hitting an existing
key silently replaces that row's value, trend and description. -/
theorem uploadRatios_no_data_exists (db : DB) (cid uid : String) (y m : Nat)
    (records : List RawRatioRow)
    (hvalid : records.filter ratioRowValid ≠ []) :
    (uploadRatios db cid uid y m false (.ok records)).2 =
      .success (records.filter ratioRowValid).length
    ∧ (∀ r ∈ records.filter ratioRowValid,
        ratioHasKey (uploadRatios db cid uid y m false (.ok records)).1.financialRatios
          cid y m (r.name.getD ""))
    ∧ (∀ (l : List FinancialRatio) (row e : FinancialRatio),
        e ∈ upsertRatio l row → ratioKeyMatch row e = true →
        e.value = row.value ∧ e.trend = row.trend ∧ e.description = row.description) := by
  have hne : records ≠ [] := fun hh => hvalid (by simp [hh])
  have hout2 : (uploadRatios db cid uid y m false (.ok records)).2 =
      .success (records.filter ratioRowValid).length := by
    cases records with
    | nil => exact absurd rfl hne
    | cons a t => simp [uploadRatios]
  have hout1 : (uploadRatios db cid uid y m false (.ok records)).1.financialRatios =
      (records.filter ratioRowValid).foldl
        (fun acc rr => upsertRatio acc (mkFinancialRatio cid y m rr))
        db.financialRatios := by
    cases records with
    | nil => exact absurd rfl hne
    | cons a t => simp [uploadRatios]
  refine ⟨hout2, ?_, fun l row e he hk => upsertRatio_replaces l row e he hk⟩
  intro r hrv
  rw [hout1]
  exact ratioFold_has_key cid y m _ _ r hrv

/-- Witness for C10 at a database already holding a same-named ratio row for
the period and one valid uploaded ratio row. -/
theorem uploadRatios_no_data_exists_witness :
    ([sampleRatioRow].filter ratioRowValid ≠ [])
    ∧ ((uploadRatios dbWithOld "coop-1" "u1" 2025 6 false (.ok [sampleRatioRow])).2 =
        .success ([sampleRatioRow].filter ratioRowValid).length
       ∧ (∀ r ∈ [sampleRatioRow].filter ratioRowValid,
            ratioHasKey (uploadRatios dbWithOld "coop-1" "u1" 2025 6 false
                (.ok [sampleRatioRow])).1.financialRatios
              "coop-1" 2025 6 (r.name.getD ""))
       ∧ (∀ (l : List FinancialRatio) (row e : FinancialRatio),
            e ∈ upsertRatio l row → ratioKeyMatch row e = true →
            e.value = row.value ∧ e.trend = row.trend
              ∧ e.description = row.description)) :=
  ⟨by decide,
   uploadRatios_no_data_exists dbWithOld "coop-1" "u1" 2025 6 [sampleRatioRow]
     (by decide)⟩

/-- C1 (the code lacks the claimed atomicity): the overwrite path of
uploadBalanceSheet runs its four storage statements as separate sequential
writes with no transaction; running all four equals the controller's final
state, but a failure after the first statement (the delete) leaves the
period+module slice empty — neither the intact old set nor the complete new
set. -/
theorem uploadBalanceSheet_replace_not_atomic :
    runFirstSteps dbWithOld
      (balanceOverwriteSteps "coop-1" "u1" 2025 6 [sampleBalanceRow]) 4 =
      (uploadBalanceSheet dbWithOld "coop-1" "u1" 2025 6 true
        (.ok [sampleBalanceRow])).1
    ∧ balanceRowsFor (runFirstSteps dbWithOld
        (balanceOverwriteSteps "coop-1" "u1" 2025 6 [sampleBalanceRow]) 1)
        "coop-1" 2025 6 = []
    ∧ balanceRowsFor dbWithOld "coop-1" 2025 6 ≠ []
    ∧ balanceRowsFor (uploadBalanceSheet dbWithOld "coop-1" "u1" 2025 6 true
        (.ok [sampleBalanceRow])).1 "coop-1" 2025 6 ≠ [] :=
  ⟨rfl, by decide, by decide, by decide⟩

end SocioFunds
